import Mathlib

/-!
# Client-side navigation layer (static/spa.js)

A shallow embedding of the single script `static/spa.js`: the active-link
marking, the asynchronous `navigate` operation, the delegated click listener,
the popstate listener and the start-up sequence, followed by the properties
the specification states about them.

The browser is the environment of the script. Its mutable parts that the
script reads or writes (lock flag, inner markup of the main element, document
title, navigation anchors, session history, scroll position) are fields of
`Page`; the calls that leave the page (fetch, location.assign, console.error,
the icon library) are recorded in logs held in the same record. The URL
constructor of the browser is a parameter (`Browser.newURL`), so that the
general theorems hold for every resolver; `refURL` is a small executable
resolver used where a concrete run is evaluated.
-/

namespace Spa

/-! ## Data model -/

/-- A parsed URL, as the script observes it through the properties `origin`,
`pathname`, `search` and `hash` of a `URL` or `Location` object. -/
structure URL where
  origin : String
  pathname : String
  search : String
  hash : String
  deriving DecidableEq, Repr

/-- The services of the environment whose result the script depends on.
`newURL input base` is `new URL(input, base)`; `none` stands for the TypeError
the constructor throws on an input it cannot parse, and the same parser
resolves the argument of `history.pushState` and `history.replaceState`
against the document URL. `innerHTML m` is the markup that `main.innerHTML`
reads back after `m` has been assigned to it: the setter parses `m` into
nodes and the getter serialises them again. `createIcons m` is the inner
markup of the main element after a call of `window.lucide.createIcons()` on a
page whose main element held `m`. -/
structure Browser where
  newURL : String → URL → Option URL
  innerHTML : String → String
  createIcons : String → String

/-- The string `window.location.origin` used as a base URL: the root of the
origin (a base that is a bare origin parses to path `/`, no query, no
fragment). -/
def originBase (loc : URL) : URL :=
  { origin := loc.origin, pathname := "/", search := "", hash := "" }

/-- An anchor matched by `.header-nav a, .footer-right a`: the raw `href`
attribute (`none` when absent, where `getAttribute` returns null), the token set
of its `classList`, and its `aria-current` attribute. The anchors of the two
navigation regions lie outside the main element. -/
structure NavLink where
  href : Option String
  classList : List String
  ariaCurrent : Option String
  deriving DecidableEq, Repr

/-- The joint session history: the entries before the current one (nearest
first), the current entry, whose URL is `window.location`, and the entries
after it (nearest first). -/
structure History where
  back : List URL
  current : URL
  forward : List URL
  deriving DecidableEq, Repr

/-- Number of entries of the session history (`history.length`). -/
def History.length (h : History) : Nat :=
  h.back.length + 1 + h.forward.length

/-- Effect of a successful `history.pushState`: the entries after the current one are
dropped and a new current entry is appended. -/
def History.pushState (h : History) (u : URL) : History :=
  { back := h.current :: h.back, current := u, forward := [] }

/-- Effect of a successful `history.replaceState`: the URL of the current entry is
rewritten, no entry is added or removed. -/
def History.replaceState (h : History) (u : URL) : History :=
  { h with current := u }

/-- The state the script closes over or reaches through `window` and
`document`, together with logs of the calls that leave the page. -/
structure Page where
  /-- The variable `isNavigating`. -/
  isNavigating : Bool
  /-- The value that `main.innerHTML` reads. -/
  mainHTML : String
  /-- The value that `document.title` reads. -/
  title : String
  /-- The anchors of the navigation link set, in document order. -/
  navLinks : List NavLink
  /-- The session history; `history.current` is `window.location`. -/
  history : History
  /-- The scroll offsets of the viewport. -/
  scroll : Nat × Nat
  /-- Whether `window.lucide.createIcons` is a function. -/
  hasLucide : Bool
  /-- Number of calls of `window.lucide.createIcons()`. -/
  iconRuns : Nat
  /-- The URLs passed to `fetch`, oldest first. -/
  fetched : List String
  /-- The URLs passed to `window.location.assign`, oldest first. -/
  assigned : List String
  /-- Number of calls of `console.error`. -/
  errors : Nat
  deriving DecidableEq, Repr

/-- The object `window.location`: the URL of the current history entry. -/
def Page.location (s : Page) : URL :=
  s.history.current

/-! ## Active-link marking (lines 10-16) -/

/-- The method `classList.toggle(token, force)` on a token set: with `force` true
the token is added unless present, with `force` false it is removed. -/
def classListToggle (tokens : List String) (token : String) (force : Bool) : List String :=
  if token ∈ tokens then
    if force then tokens else tokens.filter (fun t => t ≠ token)
  else
    if force then tokens ++ [token] else tokens

/-- The body of the `forEach` callback of `updateActiveNav` for one anchor. -/
def markLink (path : String) (a : NavLink) : NavLink :=
  let isActive : Bool := a.href == some path
  { a with
    classList := classListToggle a.classList "is-active" isActive
    ariaCurrent := some (if isActive then "page" else "false") }

/-- The function `updateActiveNav(path)` on the navigation link set. -/
def updateActiveNav (path : String) (links : List NavLink) : List NavLink :=
  links.map (markLink path)

/-- The marker state of an anchor: membership of the class `is-active` and the
value of `aria-current`. -/
def NavLink.marker (a : NavLink) : Bool × Option String :=
  (decide ("is-active" ∈ a.classList), a.ariaCurrent)

/-! ## The navigate operation (lines 19-57) -/

/-- The document the `DOMParser` builds from a response body, as far as the
script looks at it: the inner markup of the first `main` element and the text
of the first `title` element, each `none` when `querySelector` finds no such
element. -/
structure FetchedDoc where
  main : Option String
  title : Option String
  deriving DecidableEq, Repr

/-- How the awaited network request of one `navigate` call settles: the promise
of `fetch` rejects, or a response with an HTTP status arrives, whose body is
read and parsed (`some doc`) or whose `text()` promise rejects (`none`). -/
inductive FetchOutcome where
  | rejected
  | response (status : Nat) (body : Option FetchedDoc)
  deriving DecidableEq, Repr

/-- The property `res.ok`: the status lies in the range 200 to 299. -/
def responseOk (status : Nat) : Bool :=
  decide (200 ≤ status) && decide (status ≤ 299)

/-- How a block of statements ends: it runs to its end or returns (`normal`),
or it throws (`thrown`). -/
inductive Completion where
  | normal
  | thrown
  deriving DecidableEq, Repr

/-- ASCII whitespace: tab, line feed, form feed, carriage return and space. -/
def isAsciiWhitespace (c : Char) : Bool :=
  c == '\t' || c == '\n' || c == Char.ofNat 12 || c == '\r' || c == ' '

/-- The maximal runs of characters other than ASCII whitespace, in order; the
first run may be empty. -/
def splitWords : List Char → List (List Char)
  | [] => [[]]
  | c :: cs =>
    if isAsciiWhitespace c then [] :: splitWords cs
    else
      match splitWords cs with
      | w :: ws => (c :: w) :: ws
      | [] => [[c]]

/-- Joins words with single spaces. -/
def joinWords : List (List Char) → List Char
  | [] => []
  | [w] => w
  | w :: ws => w ++ ' ' :: joinWords ws

/-- The value `document.title` reads after `t` has been assigned to it: the
setter stores `t` as the text of the title element, the getter returns that
text with ASCII whitespace stripped at both ends and every inner run of it
collapsed to one space. -/
def stripAndCollapse (t : String) : String :=
  String.mk (joinWords ((splitWords t.data).filter (fun w => !w.isEmpty)))

/-- The call of `history.replaceState` when `replace` is truthy, of
`history.pushState` otherwise, with an empty state object, an empty title and
`url` (line 49). The browser parses `url`
against the document URL and throws a SecurityError (`none`) when parsing
fails or the result has another origin than the document. -/
def historyUpdate (b : Browser) (replace : Bool) (url : String) (s : Page) : Option Page :=
  match b.newURL url s.location with
  | none => none
  | some u =>
    if u.origin = s.location.origin then
      some { s with
        history := if replace then s.history.replaceState u else s.history.pushState u }
    else none

/-- The part of `navigate` before its first suspension (lines 20-24): a call
made while the lock is held returns at once; otherwise the lock is taken and
`fetch(url)` is issued. -/
def navigateStart (url : String) (s : Page) : Page :=
  if s.isNavigating then s
  else { s with isNavigating := true, fetched := s.fetched ++ [url] }

/-- The statements of the `try` block after the request has settled (lines
24-50), with the state reached and the way the block ends. -/
def navigateTry (b : Browser) (url : String) (replace : Bool) (o : FetchOutcome) (s : Page) :
    Page × Completion :=
  match o with
  | .rejected => (s, .thrown)
  | .response status body =>
    if !responseOk status then (s, .thrown)
    else
      match body with
      | none => (s, .thrown)
      | some doc =>
        match doc.main with
        | none => ({ s with assigned := s.assigned ++ [url] }, .normal)
        | some newMain =>
          let s1 := { s with mainHTML := b.innerHTML newMain }
          let s2 :=
            if s1.hasLucide then
              { s1 with mainHTML := b.createIcons s1.mainHTML, iconRuns := s1.iconRuns + 1 }
            else s1
          let s3 := match doc.title with
            | some t => { s2 with title := stripAndCollapse t }
            | none => s2
          match b.newURL url (originBase s3.location) with
          | none => (s3, .thrown)
          | some u =>
            let s4 := { s3 with navLinks := updateActiveNav u.pathname s3.navLinks }
            match historyUpdate b replace url s4 with
            | none => (s4, .thrown)
            | some s5 => ({ s5 with scroll := (0, 0) }, .normal)

/-- The rest of a `navigate` call that holds the lock, once the request has
settled: the `try` block, the `catch` clause (lines 51-53) and the `finally`
clause (lines 54-56). -/
def navigateFinish (b : Browser) (url : String) (replace : Bool) (o : FetchOutcome)
    (s : Page) : Page :=
  let r := navigateTry b url replace o s
  let s1 := match r.2 with
    | .thrown => { r.1 with errors := r.1.errors + 1, assigned := r.1.assigned ++ [url] }
    | .normal => r.1
  { s1 with isNavigating := false }

/-- One call `navigate(url, replace)` run to completion, the request settling
as `o`. The flag `replace` is the truthiness of the second argument, so the
call `navigate(url)` of the click listener has `replace = false`. -/
def navigate (b : Browser) (url : String) (replace : Bool) (o : FetchOutcome) (s : Page) :
    Page :=
  if s.isNavigating then s
  else navigateFinish b url replace o (navigateStart url s)

/-! ## Event listeners (lines 60-82) -/

/-- The element found by `e.target.closest` for the selector `a`, as the click
listener reads it: the raw `href` attribute, the reflected `target` property
and the presence of a `download` attribute. -/
structure Anchor where
  href : Option String
  target : String
  download : Bool
  deriving DecidableEq, Repr

/-- A click event: the nearest enclosing anchor of its target (if any), the
modifier keys and the mouse button. -/
structure ClickEvent where
  anchor : Option Anchor
  metaKey : Bool
  ctrlKey : Bool
  shiftKey : Bool
  altKey : Bool
  button : Int
  deriving DecidableEq, Repr

/-- One invocation of `navigate`, with its arguments. -/
structure NavigateCall where
  url : String
  replace : Bool
  deriving DecidableEq, Repr

/-- What one run of a listener did: whether it called `e.preventDefault()`, the
calls of `navigate` it made, and the page when the listener returns (each
call of `navigate` has then run up to its first suspension). -/
structure Handled where
  defaultPrevented : Bool
  navigateCalls : List NavigateCall
  page : Page
  deriving DecidableEq, Repr

/-- A listener run that returns without doing anything. -/
def Handled.ignored (s : Page) : Handled :=
  { defaultPrevented := false, navigateCalls := [], page := s }

/-- The click listener (lines 60-77). An exception of the URL constructor ends
the listener before `preventDefault`. -/
def onClick (b : Browser) (e : ClickEvent) (s : Page) : Handled :=
  match e.anchor with
  | none => Handled.ignored s
  | some a =>
    match a.href with
    | none => Handled.ignored s
    | some href =>
      if href = "" then Handled.ignored s
      else
        match b.newURL href (originBase s.location) with
        | none => Handled.ignored s
        | some url =>
          let isExternal : Bool := url.origin != s.location.origin
          let hasTarget : Bool := a.target != "" && a.target != "" && a.target != "_self"
          let isDownload : Bool := a.download
          let isHashOnly : Bool :=
            url.pathname == s.location.pathname && url.hash != "" && url.hash != ""
          let modified : Bool :=
            e.metaKey || e.ctrlKey || e.shiftKey || e.altKey || e.button != 0
          if isExternal || hasTarget || isDownload || isHashOnly || modified then
            Handled.ignored s
          else
            { defaultPrevented := true
              navigateCalls := [{ url := url.pathname ++ url.search, replace := false }]
              page := navigateStart (url.pathname ++ url.search) s }

/-- The popstate listener (lines 80-82). -/
def onPopstate (s : Page) : Handled :=
  { defaultPrevented := false
    navigateCalls :=
      [{ url := s.location.pathname ++ s.location.search, replace := true }]
    page := navigateStart (s.location.pathname ++ s.location.search) s }

/-! ## Start-up (lines 1-7 and 84) -/

/-- The page as the script finds it when it is loaded. -/
structure Host where
  /-- Whether `window.history` has a property `pushState`. -/
  hasPushState : Bool
  /-- The inner markup of the first `main` element of the document, if there is one. -/
  mainHTML : Option String
  title : String
  navLinks : List NavLink
  history : History
  scroll : Nat × Nat
  hasLucide : Bool
  deriving DecidableEq, Repr

/-- What running the script once leaves behind: the event types for which a
listener was registered, the requests issued, the navigation link set, and the
state of the component (`none` when it has disabled itself). -/
structure Loaded where
  listeners : List String
  fetched : List String
  navLinks : List NavLink
  page : Option Page
  deriving DecidableEq, Repr

/-- The body of the immediately invoked function (lines 1-85). -/
def load (h : Host) : Loaded :=
  if !h.hasPushState then
    { listeners := [], fetched := [], navLinks := h.navLinks, page := none }
  else
    match h.mainHTML with
    | none => { listeners := [], fetched := [], navLinks := h.navLinks, page := none }
    | some m =>
      let links := updateActiveNav h.history.current.pathname h.navLinks
      { listeners := ["click", "popstate"]
        fetched := []
        navLinks := links
        page := some
          { isNavigating := false, mainHTML := m, title := h.title, navLinks := links
            history := h.history, scroll := h.scroll, hasLucide := h.hasLucide
            iconRuns := 0, fetched := [], assigned := [], errors := 0 } }

/-! ## An executable resolver for concrete runs -/

/-- Splits a list of characters before the first one that satisfies `stop`. -/
def cutAt (stop : Char → Bool) : List Char → List Char × List Char
  | [] => ([], [])
  | c :: cs =>
    if stop c then ([], c :: cs)
    else (c :: (cutAt stop cs).1, (cutAt stop cs).2)

/-- ASCII letters and digits, hyphen and underscore. -/
def isWordChar (c : Char) : Bool :=
  c.isAlphanum || c == '-' || c == '_'

/-- Characters of the path of a reference that `refURL` accepts. -/
def isPathChar (c : Char) : Bool :=
  isWordChar c || c == '/'

/-- Characters of the query of a reference that `refURL` accepts. -/
def isQueryChar (c : Char) : Bool :=
  isWordChar c || c == '/' || c == '?' || c == '=' || c == '&'

/-- Characters of a host that `refURL` accepts. -/
def isHostChar (c : Char) : Bool :=
  c.isLower || c == '.'

/-- The text of `search` or `hash` for a query or fragment given with its leading
delimiter: empty when nothing follows the delimiter. -/
def component (cs : List Char) : String :=
  match cs with
  | [] => ""
  | [_] => ""
  | _ => String.mk cs

/-- Splits what follows the authority of a reference into path, query (from
`?`) and fragment (from `#`); `none` when a character is outside the accepted
sets. -/
def splitRef (cs : List Char) : Option (List Char × List Char × List Char) :=
  let p := cutAt (fun c => c == '?' || c == '#') cs
  let q := cutAt (fun c => c == '#') p.2
  if p.1.all isPathChar && (q.1.drop 1).all isQueryChar && (q.2.drop 1).all isWordChar then
    some (p.1, q.1, q.2)
  else none

/-- The URL with the given scheme whose host, path, query and fragment are read
from `r`, the text after `//`. The host must consist of lower-case letters and
dots and start with a letter; an empty path is the root path. -/
def authorityURL (scheme : List Char) (r : List Char) : Option URL :=
  let h := cutAt (fun c => c == '/' || c == '?' || c == '#') r
  if h.1.all isHostChar && (h.1.head?.map Char.isLower).getD false then
    match splitRef h.2 with
    | some (p, q, f) =>
      some
        { origin := String.mk scheme ++ "://" ++ String.mk h.1
          pathname := if p = [] then "/" else String.mk p
          search := component q
          hash := component f }
    | none => none
  else none

/-- The URL parser of the browser restricted to references of five shapes, over
letters, digits, `-`, `_` and the delimiters: a fragment `#f`; a query `?q#f`;
a path starting with one slash, `/p?q#f`; a scheme-relative reference
`//host/p?q#f`; and an absolute `http://host/p?q#f` or `https://host/p?q#f`.
On these the result is the one the URL standard prescribes for an http or
https base; every other input is outside the model and yields `none`. -/
def refURL (input : String) (base : URL) : Option URL :=
  match input.data with
  | '#' :: f =>
    if f.all isWordChar then some { base with hash := component ('#' :: f) } else none
  | '?' :: r =>
    match splitRef ('?' :: r) with
    | some ([], q, f) => some { base with search := component q, hash := component f }
    | _ => none
  | '/' :: '/' :: r => authorityURL (cutAt (fun c => c == ':') base.origin.data).1 r
  | '/' :: r =>
    match splitRef ('/' :: r) with
    | some (p, q, f) =>
      some
        { origin := base.origin, pathname := String.mk p, search := component q
          hash := component f }
    | none => none
  | 'h' :: 't' :: 't' :: 'p' :: ':' :: '/' :: '/' :: r => authorityURL "http".data r
  | 'h' :: 't' :: 't' :: 'p' :: 's' :: ':' :: '/' :: '/' :: r => authorityURL "https".data r
  | _ => none

/-- The round trip of markup through the `innerHTML` setter and getter of the
main element, for two shapes of markup: text without `<` and `&`, which reads
back as it was written, and a `pre` element whose content starts with a line
feed, which the parser drops. Other markup is outside the model. -/
def reparseMarkup (m : String) : String :=
  match m.data with
  | '<' :: 'p' :: 'r' :: 'e' :: '>' :: '\n' :: rest =>
    String.mk ('<' :: 'p' :: 'r' :: 'e' :: '>' :: rest)
  | _ => m

/-- An environment for concrete runs: the URL constructor is `refURL`, markup
reads back as `reparseMarkup` gives it, and the icon library finds no
placeholder in the markup of the runs, so it leaves the markup as it is. -/
def refBrowser : Browser :=
  { newURL := refURL, innerHTML := reparseMarkup, createIcons := fun m => m }

/-! ## States of the scenarios -/

/-- The browser action behind a back event: the previous entry becomes the
current one; the popstate event is fired afterwards. -/
def History.traverseBack (h : History) : History :=
  match h.back with
  | [] => h
  | u :: rest => { back := rest, current := u, forward := h.current :: h.forward }

/-- A location on the origin `https://site.example` with the given path. -/
def siteURL (path : String) : URL :=
  { origin := "https://site.example", pathname := path, search := "", hash := "" }

/-- The page of the end-to-end scenario: path `/a`, main content `Old`, two
navigation links `/a` (active) and `/b`, no navigation in flight. -/
def pageA : Page :=
  { isNavigating := false
    mainHTML := "Old"
    title := "A"
    navLinks :=
      [{ href := some "/a", classList := ["is-active"], ariaCurrent := some "page" },
       { href := some "/b", classList := [], ariaCurrent := some "false" }]
    history := { back := [], current := siteURL "/a", forward := [] }
    scroll := (0, 120)
    hasLucide := true
    iconRuns := 0
    fetched := []
    assigned := []
    errors := 0 }

/-- An unmodified primary-button click on an anchor with the given `href`, no
`target` and no `download` attribute. -/
def plainClick (href : String) : ClickEvent :=
  { anchor := some { href := some href, target := "", download := false }
    metaKey := false, ctrlKey := false, shiftKey := false, altKey := false, button := 0 }

/-- A response with status 200 whose document has the given main content and
title. -/
def okPage (main title : String) : FetchOutcome :=
  .response 200 (some { main := some main, title := some title })

/-- The page after the click on `/b` of the end-to-end scenario has been fetched
and swapped in. -/
def pageB : Page :=
  navigate refBrowser "/b" false (okPage "New" "B") pageA

/-- The page when the popstate listener runs after the user has gone back from
`/b`: the browser has made the entry for `/a` the current one, the content is
still the one of `/b`. -/
def pageBack : Page :=
  { pageB with history := pageB.history.traverseBack }

/-! ## Properties -/

theorem classListToggle_idem (tokens : List String) (token : String) (force : Bool) :
    classListToggle (classListToggle tokens token force) token force
      = classListToggle tokens token force := by
  unfold classListToggle
  by_cases h : token ∈ tokens <;> cases force <;> simp [h]

theorem markLink_idem (path : String) (a : NavLink) :
    markLink path (markLink path a) = markLink path a := by
  simp [markLink, classListToggle_idem]

/-- C7: applying `updateActiveNav path` twice yields the same navigation link
set, hence the same marker state on every anchor, as applying it once; this
holds for every path and every prior state of the anchors. -/
theorem updateActiveNav_idempotent (path : String) (links : List NavLink) :
    updateActiveNav path (updateActiveNav path links) = updateActiveNav path links ∧
    (updateActiveNav path (updateActiveNav path links)).map NavLink.marker
      = (updateActiveNav path links).map NavLink.marker := by
  have h : updateActiveNav path (updateActiveNav path links) = updateActiveNav path links := by
    simp [updateActiveNav, List.map_map, Function.comp_def, markLink_idem]
  exact ⟨h, by rw [h]⟩

theorem navigateStart_locked (url : String) (s : Page) (h : s.isNavigating = true) :
    navigateStart url s = s := by
  simp [navigateStart, h]

theorem navigateStart_holds_lock (url : String) (s : Page) :
    (navigateStart url s).isNavigating = true := by
  unfold navigateStart
  by_cases h : s.isNavigating = true
  · simp [h]
  · simp [h]

/-- C1: a click on an anchor with a non-empty `href` whose resolved URL has the
origin of the page, with `target` empty or `_self`, without `download`, not a
same-path link with a non-empty fragment, with no modifier key held and
button 0, prevents the default action and invokes `navigate` exactly once,
with the resolved pathname followed by the resolved query string (no origin,
no fragment) and `replace = false`; when the listener returns, that call has
run up to its suspension at the fetch. -/
theorem onClick_intercepts (b : Browser) (e : ClickEvent) (s : Page) (a : Anchor)
    (href : String) (url : URL)
    (hanchor : e.anchor = some a) (hhref : a.href = some href) (hnonempty : href ≠ "")
    (hresolved : b.newURL href (originBase s.location) = some url)
    (horigin : url.origin = s.location.origin)
    (htarget : a.target = "" ∨ a.target = "_self")
    (hdownload : a.download = false)
    (hfragment : ¬ (url.pathname = s.location.pathname ∧ url.hash ≠ ""))
    (hkeys : e.metaKey = false ∧ e.ctrlKey = false ∧ e.shiftKey = false ∧ e.altKey = false)
    (hbutton : e.button = 0) :
    (onClick b e s).defaultPrevented = true ∧
    (onClick b e s).navigateCalls = [{ url := url.pathname ++ url.search, replace := false }] ∧
    (onClick b e s).page = navigateStart (url.pathname ++ url.search) s := by
  obtain ⟨hm, hc, hs, hal⟩ := hkeys
  have hhash : (url.pathname == s.location.pathname && url.hash != "") = false := by
    by_cases hp : url.pathname = s.location.pathname
    · have : url.hash = "" := by
        by_contra hne
        exact hfragment ⟨hp, hne⟩
      simp [this]
    · simp [hp]
  have htgt : (a.target != "" && a.target != "_self") = false := by
    rcases htarget with h | h <;> simp [h]
  simp only [onClick, hanchor, hhref, hnonempty, hresolved, horigin, hdownload, hm, hc, hs,
    hal, hbutton, if_false, Bool.and_self, bne_self_eq_false, Bool.false_or, Bool.or_false]
  simp [hhash, htgt, Bool.and_assoc]

theorem onClick_intercepts_witness :
    (onClick refBrowser (plainClick "/b?page=2#top") pageA).defaultPrevented = true ∧
    (onClick refBrowser (plainClick "/b?page=2#top") pageA).navigateCalls
      = [{ url := "/b?page=2", replace := false }] ∧
    (onClick refBrowser (plainClick "/b?page=2#top") pageA).page
      = navigateStart "/b?page=2" pageA :=
  onClick_intercepts refBrowser (plainClick "/b?page=2#top") pageA
    { href := some "/b?page=2#top", target := "", download := false } "/b?page=2#top"
    { origin := "https://site.example", pathname := "/b", search := "?page=2", hash := "#top" }
    rfl rfl (by decide) (by decide) rfl (Or.inl rfl) rfl (by decide) ⟨rfl, rfl, rfl, rfl⟩ rfl

/-- C2: a click is left to the browser, with the page (lock, main content,
title, history and everything else) unchanged, no default prevented and no
`navigate` call, whenever the target has no enclosing anchor, the anchor has
no `href` attribute or an empty one, its `target` is non-empty and not `_self`,
it has a `download` attribute, a meta, ctrl, shift or alt key is held, the
button is not 0, the resolved URL has another origin than the page, or the
resolved URL has the pathname of the page and a non-empty fragment. -/
theorem onClick_ignores (b : Browser) (e : ClickEvent) (s : Page)
    (h : e.anchor = none ∨
      ∃ a, e.anchor = some a ∧
        (a.href = none ∨ a.href = some "" ∨
         (a.target ≠ "" ∧ a.target ≠ "_self") ∨
         a.download = true ∨
         e.metaKey = true ∨ e.ctrlKey = true ∨ e.shiftKey = true ∨ e.altKey = true ∨
         e.button ≠ 0 ∨
         ∃ href url, a.href = some href ∧
           b.newURL href (originBase s.location) = some url ∧
           (url.origin ≠ s.location.origin ∨
            (url.pathname = s.location.pathname ∧ url.hash ≠ "")))) :
    (onClick b e s).defaultPrevented = false ∧
    (onClick b e s).navigateCalls = [] ∧
    (onClick b e s).page = s ∧
    onClick b e s = Handled.ignored s := by
  have key : onClick b e s = Handled.ignored s := by
    rcases h with h | ⟨a, ha, h⟩
    · simp [onClick, h]
    · simp only [onClick, ha]
      cases hh : a.href with
      | none => rfl
      | some href =>
        simp only []
        by_cases he : href = ""
        · simp [he]
        · simp only [he, if_false]
          cases hr : b.newURL href (originBase s.location) with
          | none => rfl
          | some url =>
            simp only []
            rcases h with h | h | h | h | h | h | h | h | h | ⟨href', url', h1, h2, h3⟩
            · simp [hh] at h
            · simp [hh] at h; exact absurd h he
            · simp [h.1, h.2]
            · simp [h]
            · simp [h]
            · simp [h]
            · simp [h]
            · simp [h]
            · simp [h]
            · rw [hh] at h1
              cases h1
              rw [hr] at h2
              cases h2
              rcases h3 with h3 | h3
              · simp [h3]
              · simp [h3.1, h3.2]
  rw [key]
  exact ⟨rfl, rfl, rfl, rfl⟩

theorem onClick_ignores_witness :
    (onClick refBrowser { plainClick "/b" with shiftKey := true } pageA).defaultPrevented = false ∧
    (onClick refBrowser { plainClick "/b" with shiftKey := true } pageA).navigateCalls = [] ∧
    (onClick refBrowser { plainClick "/b" with shiftKey := true } pageA).page = pageA ∧
    onClick refBrowser { plainClick "/b" with shiftKey := true } pageA = Handled.ignored pageA :=
  onClick_ignores refBrowser { plainClick "/b" with shiftKey := true } pageA
    (Or.inr ⟨{ href := some "/b", target := "", download := false }, rfl,
      Or.inr (Or.inr (Or.inr (Or.inr (Or.inr (Or.inr (Or.inl rfl))))))⟩)

/-- C3: a `navigate` call made while the lock is held is a no-op for every url,
replace flag and request outcome: the whole page, with its fetch log, its
fallback log, main content, title, markers, history, scroll position and the
lock, is returned unchanged; a second call during the suspension of a first
one therefore does not alter what the first one goes on to apply. -/
theorem navigate_locked_noop (b : Browser) (url : String) (replace : Bool)
    (o : FetchOutcome) (s : Page) (hlock : s.isNavigating = true) :
    navigate b url replace o s = s ∧
    navigateStart url s = s ∧
    ∀ (url1 : String) (replace1 : Bool) (o1 : FetchOutcome) (s0 : Page),
      navigateFinish b url1 replace1 o1 (navigateStart url (navigateStart url1 s0))
        = navigateFinish b url1 replace1 o1 (navigateStart url1 s0) := by
  refine ⟨by simp [navigate, hlock], navigateStart_locked url s hlock, ?_⟩
  intro url1 replace1 o1 s0
  rw [navigateStart_locked url _ (navigateStart_holds_lock url1 s0)]

theorem navigate_locked_noop_witness :
    navigate refBrowser "/b" false (okPage "New" "B") { pageA with isNavigating := true }
      = { pageA with isNavigating := true } ∧
    navigateStart "/b" { pageA with isNavigating := true }
      = { pageA with isNavigating := true } :=
  ⟨(navigate_locked_noop refBrowser "/b" false (okPage "New" "B")
      { pageA with isNavigating := true } rfl).1,
   (navigate_locked_noop refBrowser "/b" false (okPage "New" "B")
      { pageA with isNavigating := true } rfl).2.1⟩

theorem navigateFinish_releases (b : Browser) (url : String) (replace : Bool)
    (o : FetchOutcome) (s : Page) :
    (navigateFinish b url replace o s).isNavigating = false := by
  simp [navigateFinish]

/-- C4: a `navigate` call that starts with the lock free ends with the lock free,
for every url, replace flag and outcome of the request (rejected, non-OK
status, body read failure, document without or with a main element). -/
theorem navigate_releases_lock (b : Browser) (url : String) (replace : Bool)
    (o : FetchOutcome) (s : Page) (hfree : s.isNavigating = false) :
    (navigate b url replace o s).isNavigating = false := by
  simp [navigate, hfree, navigateFinish_releases]

theorem navigate_releases_lock_witness :
    pageA.isNavigating = false ∧
    (navigate refBrowser "/b" false FetchOutcome.rejected pageA).isNavigating = false ∧
    (navigate refBrowser "/b" false (FetchOutcome.response 404 none) pageA).isNavigating = false ∧
    (navigate refBrowser "/b" false (FetchOutcome.response 200 none) pageA).isNavigating = false ∧
    (navigate refBrowser "/b" false
      (FetchOutcome.response 200 (some { main := none, title := none })) pageA).isNavigating
      = false ∧
    (navigate refBrowser "/b" false (okPage "New" "B") pageA).isNavigating = false :=
  ⟨rfl, navigate_releases_lock refBrowser "/b" false _ pageA rfl,
    navigate_releases_lock refBrowser "/b" false _ pageA rfl,
    navigate_releases_lock refBrowser "/b" false _ pageA rfl,
    navigate_releases_lock refBrowser "/b" false _ pageA rfl,
    navigate_releases_lock refBrowser "/b" false _ pageA rfl⟩

/-- C5: when `navigate` runs with the lock free and the fetch is rejected, or the
response status is not OK, or the body cannot be read, or the parsed document
has no main element, `location.assign` is requested exactly once, with the url
passed to `navigate`, and main content, title, navigation links and history
are left as they were. -/
theorem navigate_falls_back (b : Browser) (url : String) (replace : Bool)
    (o : FetchOutcome) (s : Page) (hfree : s.isNavigating = false)
    (hfail : o = FetchOutcome.rejected ∨
      (∃ status body, o = FetchOutcome.response status body ∧ responseOk status = false) ∨
      (∃ status, o = FetchOutcome.response status none) ∨
      (∃ status doc, o = FetchOutcome.response status (some doc) ∧ doc.main = none)) :
    (navigate b url replace o s).assigned = s.assigned ++ [url] ∧
    (navigate b url replace o s).mainHTML = s.mainHTML ∧
    (navigate b url replace o s).title = s.title ∧
    (navigate b url replace o s).navLinks = s.navLinks ∧
    (navigate b url replace o s).history = s.history ∧
    (navigate b url replace o s).fetched = s.fetched ++ [url] := by
  rcases hfail with h | ⟨status, body, h, hok⟩ | ⟨status, h⟩ | ⟨status, doc, h, hmain⟩
  · subst h
    simp [navigate, hfree, navigateFinish, navigateTry, navigateStart]
  · subst h
    simp [navigate, hfree, navigateFinish, navigateTry, navigateStart, hok]
  · subst h
    by_cases hok : responseOk status = true <;>
      simp [navigate, hfree, navigateFinish, navigateTry, navigateStart, hok]
  · subst h
    by_cases hok : responseOk status = true <;>
      simp [navigate, hfree, navigateFinish, navigateTry, navigateStart, hok, hmain]

theorem navigate_falls_back_witness :
    (navigate refBrowser "/b" false (FetchOutcome.response 404 none) pageA).assigned = ["/b"] ∧
    (navigate refBrowser "/b" false (FetchOutcome.response 404 none) pageA).mainHTML = "Old" ∧
    (navigate refBrowser "/b" false (FetchOutcome.response 404 none) pageA).title = "A" ∧
    (navigate refBrowser "/b" false (FetchOutcome.response 404 none) pageA).navLinks
      = pageA.navLinks ∧
    (navigate refBrowser "/b" false (FetchOutcome.response 404 none) pageA).history
      = pageA.history ∧
    (navigate refBrowser "/b" false (FetchOutcome.response 404 none) pageA).fetched = ["/b"] :=
  navigate_falls_back refBrowser "/b" false (FetchOutcome.response 404 none) pageA rfl
    (Or.inr (Or.inl ⟨404, none, rfl, by decide⟩))

theorem mem_classListToggle (tokens : List String) (token : String) (force : Bool) :
    token ∈ classListToggle tokens token force ↔ force = true := by
  unfold classListToggle
  by_cases h : token ∈ tokens <;> cases force <;> simp [h]

theorem markLink_spec (path : String) (a : NavLink) :
    (markLink path a).href = a.href ∧
    ("is-active" ∈ (markLink path a).classList ↔ a.href = some path) ∧
    ((markLink path a).ariaCurrent = some "page" ↔ a.href = some path) := by
  refine ⟨rfl, ?_, ?_⟩
  · simp [markLink, mem_classListToggle]
  · by_cases h : a.href = some path <;> simp [markLink, h]

theorem updateActiveNav_spec (path : String) (links : List NavLink) :
    ∀ a ∈ updateActiveNav path links,
      ("is-active" ∈ a.classList ↔ a.href = some path) ∧
      (a.ariaCurrent = some "page" ↔ a.href = some path) := by
  intro a ha
  simp only [updateActiveNav, List.mem_map] at ha
  obtain ⟨a0, _, rfl⟩ := ha
  have h := markLink_spec path a0
  rw [h.1]
  exact h.2

theorem navigate_ok_eq (b : Browser) (url : String) (replace : Bool) (s : Page)
    (status : Nat) (doc : FetchedDoc) (newMain : String) (u u' : URL)
    (hfree : s.isNavigating = false)
    (hok : responseOk status = true)
    (hmain : doc.main = some newMain)
    (hpath : b.newURL url (originBase s.location) = some u)
    (hentry : b.newURL url s.location = some u')
    (horigin : u'.origin = s.location.origin) :
    navigate b url replace (FetchOutcome.response status (some doc)) s =
      { s with
        isNavigating := false
        mainHTML :=
          if s.hasLucide then b.createIcons (b.innerHTML newMain) else b.innerHTML newMain
        title := (doc.title.map stripAndCollapse).getD s.title
        navLinks := updateActiveNav u.pathname s.navLinks
        history := if replace then s.history.replaceState u' else s.history.pushState u'
        scroll := (0, 0)
        iconRuns := if s.hasLucide then s.iconRuns + 1 else s.iconRuns
        fetched := s.fetched ++ [url] } := by
  cases ht : doc.title <;> cases hl : s.hasLucide <;> cases replace <;>
    simp [navigate, hfree, navigateFinish, navigateTry, navigateStart, hok, hmain, ht, hl,
      Page.location, historyUpdate] <;>
    simp [Page.location] at hpath hentry horigin <;>
    simp [hpath, hentry, horigin]

/-- C6 (amended): when `navigate` runs with the lock free, the fetch returns an OK
response whose document has a main element, and the browser resolves `url`
against the origin (to `u`) and against the document (to `u'`, of the origin
of the page), then afterwards the main content is the fetched inner markup as
it reads back from `innerHTML` after the assignment, passed through the icon
library when that is present (so it is the fetched markup itself when both
leave it unchanged); the title is the fetched title text with ASCII
whitespace stripped and collapsed if there is a title element (the text
itself when it has no such whitespace to remove) and unchanged otherwise;
every navigation anchor carries the active marker exactly when its `href`
equals `u.pathname`; the history has one new current entry `u'` after the
former current one when `replace` is false and has its current entry
rewritten to `u'` at the same length when `replace` is true; the scroll
position is (0, 0); no full navigation is requested and the lock is free. -/
theorem navigate_swaps (b : Browser) (url : String) (replace : Bool) (s s' : Page)
    (status : Nat) (doc : FetchedDoc) (newMain : String) (u u' : URL)
    (hfree : s.isNavigating = false)
    (hok : responseOk status = true)
    (hmain : doc.main = some newMain)
    (hpath : b.newURL url (originBase s.location) = some u)
    (hentry : b.newURL url s.location = some u')
    (horigin : u'.origin = s.location.origin)
    (hrun : s' = navigate b url replace (FetchOutcome.response status (some doc)) s) :
    s'.mainHTML
      = (if s.hasLucide then b.createIcons (b.innerHTML newMain) else b.innerHTML newMain) ∧
    (b.innerHTML newMain = newMain → (s.hasLucide = true → b.createIcons newMain = newMain) →
      s'.mainHTML = newMain) ∧
    s'.title = (doc.title.map stripAndCollapse).getD s.title ∧
    (∀ t, doc.title = some t → stripAndCollapse t = t → s'.title = t) ∧
    (doc.title = none → s'.title = s.title) ∧
    s'.navLinks = updateActiveNav u.pathname s.navLinks ∧
    (∀ a ∈ s'.navLinks,
      ("is-active" ∈ a.classList ↔ a.href = some u.pathname) ∧
      (a.ariaCurrent = some "page" ↔ a.href = some u.pathname)) ∧
    (replace = false →
      s'.history = { back := s.history.current :: s.history.back, current := u', forward := [] }) ∧
    (replace = true →
      s'.history = { s.history with current := u' } ∧ s'.history.length = s.history.length) ∧
    s'.scroll = (0, 0) ∧
    s'.assigned = s.assigned ∧
    s'.fetched = s.fetched ++ [url] ∧
    s'.isNavigating = false := by
  rw [navigate_ok_eq b url replace s status doc newMain u u' hfree hok hmain hpath hentry
    horigin] at hrun
  subst hrun
  refine ⟨rfl, ?_, rfl, ?_, ?_, rfl, updateActiveNav_spec u.pathname s.navLinks, ?_, ?_, rfl,
    rfl, rfl, rfl⟩
  · intro hround hicons
    cases hl : s.hasLucide
    · simp [hround]
    · simp [hround, hicons hl]
  · intro t ht hfix
    simp [ht, hfix]
  · intro ht
    simp [ht]
  · intro h
    simp [h, History.pushState]
  · intro h
    simp [h, History.replaceState, History.length]

theorem navigate_swaps_witness :
    pageA.isNavigating = false ∧
    refBrowser.newURL "/b" (originBase pageA.location) = some (siteURL "/b") ∧
    refBrowser.newURL "/b" pageA.location = some (siteURL "/b") ∧
    (navigate refBrowser "/b" false (okPage "New" "B") pageA).mainHTML = "New" ∧
    (navigate refBrowser "/b" false (okPage "New" "B") pageA).title = "B" ∧
    (navigate refBrowser "/b" false (okPage "New" "B") pageA).navLinks
      = [{ href := some "/a", classList := [], ariaCurrent := some "false" },
         { href := some "/b", classList := ["is-active"], ariaCurrent := some "page" }] ∧
    (navigate refBrowser "/b" false (okPage "New" "B") pageA).history
      = { back := [siteURL "/a"], current := siteURL "/b", forward := [] } ∧
    (navigate refBrowser "/b" false (okPage "New" "B") pageA).scroll = (0, 0) ∧
    (navigate refBrowser "/b" false (okPage "New" "B") pageA).assigned = [] :=
  have h := navigate_swaps refBrowser "/b" false pageA
    (navigate refBrowser "/b" false (okPage "New" "B") pageA) 200
    { main := some "New", title := some "B" } "New" (siteURL "/b") (siteURL "/b")
    rfl (by decide) rfl (by decide) (by decide) rfl rfl
  ⟨rfl, by decide, by decide, h.2.1 (by decide) (fun _ => rfl), h.2.2.2.1 "B" rfl (by decide),
    h.2.2.2.2.2.1, h.2.2.2.2.2.2.2.1 rfl, h.2.2.2.2.2.2.2.2.2.1, h.2.2.2.2.2.2.2.2.2.2.1⟩

/-- C6 as stated fails, in three ways, each with the lock free and an OK response
holding a main element. (1) A plain click on a link to
`https://site.example//evil/x` on a page of `https://site.example` passes the
url `//evil/x` to `navigate`; the main content is swapped, `pushState` then
refuses the URL, which resolves to the origin `https://evil`, the catch clause
requests a full navigation, and the history gets no new entry and the scroll
position stays. (2) For the url `/b` and a fetched title text with line breaks
around `B page`, the document title reads `B page`, not the fetched text.
(3) For the url `/b` and a fetched main markup that is a `pre` element starting
with a line feed, the main content reads back without that line feed. -/
theorem navigate_swap_fails_as_stated :
    (onClick refBrowser (plainClick "https://site.example//evil/x") pageA).navigateCalls
      = [{ url := "//evil/x", replace := false }] ∧
    pageA.isNavigating = false ∧
    refBrowser.newURL "//evil/x" pageA.location
      = some { origin := "https://evil", pathname := "/x", search := "", hash := "" } ∧
    (navigate refBrowser "//evil/x" false (okPage "New" "B") pageA).mainHTML = "New" ∧
    (navigate refBrowser "//evil/x" false (okPage "New" "B") pageA).assigned = ["//evil/x"] ∧
    (navigate refBrowser "//evil/x" false (okPage "New" "B") pageA).history = pageA.history ∧
    (navigate refBrowser "//evil/x" false (okPage "New" "B") pageA).scroll = (0, 120) ∧
    (navigate refBrowser "/b" false (okPage "New" "\n B page\n") pageA).title = "B page" ∧
    (navigate refBrowser "/b" false (okPage "New" "\n B page\n") pageA).title ≠ "\n B page\n" ∧
    (navigate refBrowser "/b" false (okPage "<pre>\nfoo</pre>" "B") pageA).mainHTML
      = "<pre>foo</pre>" ∧
    (navigate refBrowser "/b" false (okPage "<pre>\nfoo</pre>" "B") pageA).mainHTML
      ≠ "<pre>\nfoo</pre>" := by
  decide

theorem navigateTry_replace_keeps_entries (b : Browser) (url : String) (o : FetchOutcome)
    (s : Page) :
    (navigateTry b url true o s).1.history.back = s.history.back ∧
    (navigateTry b url true o s).1.history.forward = s.history.forward := by
  cases o with
  | rejected => simp [navigateTry]
  | response status body =>
    by_cases hok : responseOk status = true
    · cases body with
      | none => simp [navigateTry, hok]
      | some doc =>
        cases hm : doc.main with
        | none => simp [navigateTry, hok, hm]
        | some newMain =>
          cases hp : b.newURL url (originBase s.history.current) with
          | none =>
            cases ht : doc.title <;> cases hl : s.hasLucide <;>
              simp [navigateTry, hok, hm, ht, hl, Page.location, hp]
          | some u =>
            cases he : b.newURL url s.history.current with
            | none =>
              cases ht : doc.title <;> cases hl : s.hasLucide <;>
                simp [navigateTry, hok, hm, ht, hl, Page.location, hp, he, historyUpdate]
            | some u' =>
              by_cases ho : u'.origin = s.history.current.origin <;>
                cases ht : doc.title <;> cases hl : s.hasLucide <;>
                simp [navigateTry, hok, hm, ht, hl, Page.location, hp, he, historyUpdate, ho,
                  History.replaceState]
    · simp [navigateTry, hok]

theorem navigate_replace_keeps_entries (b : Browser) (url : String) (o : FetchOutcome)
    (s : Page) :
    (navigate b url true o s).history.back = s.history.back ∧
    (navigate b url true o s).history.forward = s.history.forward := by
  by_cases hn : s.isNavigating = true
  · simp [navigate, hn]
  · have h := navigateTry_replace_keeps_entries b url o (navigateStart url s)
    have hs : (navigateStart url s).history = s.history := by simp [navigateStart, hn]
    rw [hs] at h
    simp only [navigate, hn, navigateFinish]
    cases hc : (navigateTry b url true o (navigateStart url s)).2 <;> simp [hc, h]

/-- C8: the popstate listener invokes `navigate` exactly once, with the pathname
of the current location followed by its query string and with `replace = true`,
and does not prevent any default. Whatever the outcome of that navigation, the
history keeps its entries before and after the current one, hence its length;
when the navigation succeeds the current entry is rewritten to the URL the
url resolves to. After going back from `/b` to `/a` in the end-to-end scenario
the listener calls `navigate` with `/a`, and the history is again `/a`
(current) followed by `/b`, two entries. -/
theorem onPopstate_replaces (b : Browser) (s : Page) :
    (onPopstate s).navigateCalls
      = [{ url := s.location.pathname ++ s.location.search, replace := true }] ∧
    (onPopstate s).defaultPrevented = false ∧
    (onPopstate s).page = navigateStart (s.location.pathname ++ s.location.search) s ∧
    (∀ o : FetchOutcome,
      (navigate b (s.location.pathname ++ s.location.search) true o s).history.back
        = s.history.back ∧
      (navigate b (s.location.pathname ++ s.location.search) true o s).history.forward
        = s.history.forward ∧
      (navigate b (s.location.pathname ++ s.location.search) true o s).history.length
        = s.history.length) ∧
    (∀ (status : Nat) (doc : FetchedDoc) (newMain : String) (u u' : URL),
      s.isNavigating = false → responseOk status = true → doc.main = some newMain →
      b.newURL (s.location.pathname ++ s.location.search) (originBase s.location) = some u →
      b.newURL (s.location.pathname ++ s.location.search) s.location = some u' →
      u'.origin = s.location.origin →
      (navigate b (s.location.pathname ++ s.location.search) true
        (FetchOutcome.response status (some doc)) s).history = { s.history with current := u' }) ∧
    pageBack.history = { back := [], current := siteURL "/a", forward := [siteURL "/b"] } ∧
    (onPopstate pageBack).navigateCalls = [{ url := "/a", replace := true }] ∧
    (navigate refBrowser "/a" true (okPage "Old" "A") pageBack).history
      = { back := [], current := siteURL "/a", forward := [siteURL "/b"] } ∧
    (navigate refBrowser "/a" true (okPage "Old" "A") pageBack).history.length = 2 ∧
    (navigate refBrowser "/a" true (okPage "Old" "A") pageBack).mainHTML = "Old" := by
  refine ⟨rfl, rfl, rfl, ?_, ?_, by decide, by decide, by decide, by decide, by decide⟩
  · intro o
    have h := navigate_replace_keeps_entries b (s.location.pathname ++ s.location.search) o s
    exact ⟨h.1, h.2, by simp [History.length, h.1, h.2]⟩
  · intro status doc newMain u u' hfree hok hmain hpath hentry horigin
    rw [navigate_ok_eq b _ true s status doc newMain u u' hfree hok hmain hpath hentry horigin]
    simp [History.replaceState]

theorem onPopstate_replaces_witness :
    pageBack.isNavigating = false ∧
    (onPopstate pageBack).navigateCalls = [{ url := "/a", replace := true }] ∧
    (navigate refBrowser "/a" true (okPage "Old" "A") pageBack).history
      = { pageBack.history with current := siteURL "/a" } ∧
    (navigate refBrowser "/a" true FetchOutcome.rejected pageBack).history.length
      = pageBack.history.length :=
  ⟨by decide, (onPopstate_replaces refBrowser pageBack).1,
    (onPopstate_replaces refBrowser pageBack).2.2.2.2.1 200
      { main := some "Old", title := some "A" } "Old" (siteURL "/a") (siteURL "/a")
      (by decide) (by decide) rfl (by decide) (by decide) (by decide),
    ((onPopstate_replaces refBrowser pageBack).2.2.2.1 FetchOutcome.rejected).2.2⟩

/-- C9: when the history object has no `pushState`, or the document has no main
element, the script registers no click listener and no popstate listener,
issues no fetch, leaves every navigation anchor as it was, and keeps no
state. -/
theorem load_disabled (h : Host) (hdis : h.hasPushState = false ∨ h.mainHTML = none) :
    (load h).listeners = [] ∧
    (load h).fetched = [] ∧
    (load h).navLinks = h.navLinks ∧
    (load h).page = none := by
  unfold load
  rcases hdis with hp | hm
  · simp [hp]
  · by_cases hp : h.hasPushState = true <;> simp [hp, hm]

theorem load_disabled_witness :
    (load { hasPushState := true, mainHTML := none, title := "A", navLinks := pageA.navLinks
            history := pageA.history, scroll := (0, 0), hasLucide := false }).listeners = [] ∧
    (load { hasPushState := true, mainHTML := none, title := "A", navLinks := pageA.navLinks
            history := pageA.history, scroll := (0, 0), hasLucide := false }).fetched = [] ∧
    (load { hasPushState := true, mainHTML := none, title := "A", navLinks := pageA.navLinks
            history := pageA.history, scroll := (0, 0), hasLucide := false }).navLinks
      = pageA.navLinks ∧
    (load { hasPushState := true, mainHTML := none, title := "A", navLinks := pageA.navLinks
            history := pageA.history, scroll := (0, 0), hasLucide := false }).page = none :=
  load_disabled _ (Or.inr rfl)

/-- C10 fails on the code: on the page `/a` an unmodified primary-button click on
an anchor whose raw `href` is the bare fragment `#sec` is intercepted. The
listener resolves the `href` against the origin, which gives the path `/`
instead of `/a`, so the same-path test fails, the default action is prevented
and `navigate` is invoked with `/`. On the page `/` the same click is left to
the browser. -/
theorem onClick_bare_fragment_off_root :
    pageA.location.pathname = "/a" ∧
    refBrowser.newURL "#sec" (originBase pageA.location)
      = some { origin := "https://site.example", pathname := "/", search := "", hash := "#sec" } ∧
    (onClick refBrowser (plainClick "#sec") pageA).defaultPrevented = true ∧
    (onClick refBrowser (plainClick "#sec") pageA).navigateCalls
      = [{ url := "/", replace := false }] ∧
    onClick refBrowser (plainClick "#sec")
        { pageA with history := { back := [], current := siteURL "/", forward := [] } }
      = Handled.ignored
        { pageA with history := { back := [], current := siteURL "/", forward := [] } } := by
  decide

end Spa
